import Mathlib

/-!
Renderer (source/Renderer.cpp): lifecycle of the Direct3D rendering context

A shallow embedding of `dae::Renderer`: the constructor, `InitializeDirectX`,
`PressFilterMethod`, `CreateMesh`, `Render` and the destructor, as state-passing functions
over a record of the member variables.

* A pointer member is an `Option Handle`; `none` is the null pointer. A call through a null
  pointer ends the function with a `Fault`.
* Every call into Direct3D, DXGI, the effect framework and the mesh is recorded in an event
  trace carried by the state. Console output is not recorded.
* The status code each creation call returns is an input: `codes : Step → HRESULT` for the
  seven steps of `InitializeDirectX`, one `SamplerReply` per `PressFilterMethod` call.
  A successful creation yields an object with a new identity (`nextHandle`).
* Renderer.h is not among the sources: the enumeration `FilteringMethods` and the default
  member initialisers are taken from the spec and marked as such.
-/

namespace dae

/-! ## Status codes and SDK constants -/

/-- Windows status code (`HRESULT`, a signed 32-bit value). -/
abbrev HRESULT := Int

/-- The SDK constant `S_OK`. -/
def S_OK : HRESULT := 0

/-- The SDK constant `E_FAIL` (0x80004005 read as a signed 32-bit value). -/
def E_FAIL : HRESULT := -2147467259

/-- The SDK macro `FAILED(hr)`: the status code is negative. -/
def FAILED (hr : HRESULT) : Bool := decide (hr < 0)

/-- Values of the SDK enumeration `D3D11_FILTER`. -/
abbrev D3D11_FILTER := Nat

/-- SDK value of `D3D11_FILTER_MIN_MAG_MIP_POINT`. -/
def D3D11_FILTER_MIN_MAG_MIP_POINT : D3D11_FILTER := 0

/-- SDK value of `D3D11_FILTER_MIN_MAG_MIP_LINEAR`. -/
def D3D11_FILTER_MIN_MAG_MIP_LINEAR : D3D11_FILTER := 0x15

/-- SDK value of `D3D11_FILTER_ANISOTROPIC`. -/
def D3D11_FILTER_ANISOTROPIC : D3D11_FILTER := 0x55

/-- Modelled from the spec: the enumeration `FilteringMethods` is declared in Renderer.h,
which is not among the sources; the spec gives its three values and their cyclic order
Point, Linear, Anisotropic, taken here as the declaration order (underlying values 0, 1, 2). -/
inductive FilteringMethods where
  | Point
  | Linear
  | Anisotropic
  deriving DecidableEq, Repr

/-- The conversion `static_cast<int>(m)`. -/
def FilteringMethods.toInt : FilteringMethods → Int
  | .Point => 0
  | .Linear => 1
  | .Anisotropic => 2

/-- The conversion `static_cast<FilteringMethods>(i)`, for the values 0, 1, 2 that a
remainder modulo 3 of a non-negative number takes. -/
def FilteringMethods.ofInt (i : Int) : FilteringMethods :=
  if i = 0 then .Point else if i = 1 then .Linear else .Anisotropic

/-! ## Handles, events, state -/

/-- Identity of a COM object (or of the mesh); a null pointer is `none : Option Handle`. -/
abbrev Handle := Nat

/-- The seven fallible calls of `InitializeDirectX`, in program order. -/
inductive Step where
  | D3D11CreateDevice
  | CreateDXGIFactory1
  | CreateSwapChain
  | CreateTexture2D
  | CreateDepthStencilView
  | GetBuffer
  | CreateRenderTargetView
  deriving DecidableEq, Repr

/-- Position of a step in `InitializeDirectX`. -/
def Step.idx : Step → Nat
  | .D3D11CreateDevice => 0
  | .CreateDXGIFactory1 => 1
  | .CreateSwapChain => 2
  | .CreateTexture2D => 3
  | .CreateDepthStencilView => 4
  | .GetBuffer => 5
  | .CreateRenderTargetView => 6

/-- The steps of `InitializeDirectX` in program order. -/
def Step.all : List Step :=
  [.D3D11CreateDevice, .CreateDXGIFactory1, .CreateSwapChain, .CreateTexture2D,
   .CreateDepthStencilView, .GetBuffer, .CreateRenderTargetView]

/-- The kinds of object the renderer obtains: the nine pointers it keeps in members, and the
DXGI factory, which `InitializeDirectX` keeps in the local `pDxgiFactory` only. -/
inductive Res where
  | Device
  | DeviceContext
  | Factory
  | SwapChain
  | DepthStencilBuffer
  | DepthStencilView
  | RenderTargetBuffer
  | RenderTargetView
  | EffectSamplerVariable
  | SamplerState
  deriving DecidableEq, Repr

/-- One observable call made by the renderer. -/
inductive Event where
  /-- A creation step of `InitializeDirectX` was called and returned `hr`. -/
  | call (k : Step) (hr : HRESULT)
  /-- A successful call handed the object `h` to the renderer. -/
  | acquire (r : Res) (h : Handle)
  /-- The call `h->Release()`. -/
  | release (h : Handle)
  | ClearState (ctx : Handle)
  | Flush (ctx : Handle)
  | OMSetRenderTargets (ctx : Handle) (rtv dsv : Option Handle)
  | RSSetViewports (ctx : Handle)
  | ClearRenderTargetView (ctx : Handle) (rtv : Option Handle)
  | ClearDepthStencilView (ctx : Handle) (dsv : Option Handle)
  | MeshRender (mesh ctx : Handle)
  | Present (sc : Handle)
  /-- The call `dev->CreateSamplerState(&m_SamplerDesc, &m_pSamplerState)` with the
  descriptor's `Filter` field, returning `hr`. -/
  | CreateSamplerState (dev : Handle) (filter : D3D11_FILTER) (hr : HRESULT)
  | SetSampler (var : Handle) (slot : Nat) (sampler : Handle)
  /-- The expression `new Mesh{ m_pDevice, vertices, indices }`. -/
  | newMesh (dev : Option Handle)
  | deleteMesh
  | deleteCamera
  deriving DecidableEq, Repr

/-- The member variables of `dae::Renderer` that the modelled functions read or write,
followed by three observation fields: the trace of calls made so far, the next unused
object identity, and the sampler currently bound to slot 0 of the effect's sampler variable
(the state `SetSampler(0, _)` writes). -/
structure Renderer where
  m_IsInitialized : Bool
  m_pDevice : Option Handle
  m_pDeviceContext : Option Handle
  m_pSwapChain : Option Handle
  m_pDepthStencilBuffer : Option Handle
  m_pDepthStencilView : Option Handle
  m_pRenderTargetBuffer : Option Handle
  m_pRenderTargetView : Option Handle
  m_pEffectSamplerVariable : Option Handle
  m_pSamplerState : Option Handle
  m_pMesh : Option Handle
  m_FilteringMethod : FilteringMethods
  m_SamplerDesc_Filter : D3D11_FILTER
  trace : List Event
  nextHandle : Nat
  boundSampler : Option Handle
  deriving DecidableEq, Repr

/-- Modelled from the spec: the default member initialisers are in Renderer.h, which is not
among the sources.  Every pointer starts null (the spec: a handle is absent until created)
and the status flag starts false (the spec: true only if every creation step succeeds); the
initial filtering method and the initial `Filter` field are parameters. -/
def Renderer.fresh (mode : FilteringMethods) (filter : D3D11_FILTER) : Renderer :=
  { m_IsInitialized := false
    m_pDevice := none
    m_pDeviceContext := none
    m_pSwapChain := none
    m_pDepthStencilBuffer := none
    m_pDepthStencilView := none
    m_pRenderTargetBuffer := none
    m_pRenderTargetView := none
    m_pEffectSamplerVariable := none
    m_pSamplerState := none
    m_pMesh := none
    m_FilteringMethod := mode
    m_SamplerDesc_Filter := filter
    trace := []
    nextHandle := 0
    boundSampler := none }

/-- Append one event to the trace. -/
def Renderer.emit (s : Renderer) (e : Event) : Renderer :=
  { s with trace := s.trace ++ [e] }

/-- The member pointer that holds an object of the given kind (the factory has none). -/
def Renderer.slot (s : Renderer) : Res → Option Handle
  | .Device => s.m_pDevice
  | .DeviceContext => s.m_pDeviceContext
  | .Factory => none
  | .SwapChain => s.m_pSwapChain
  | .DepthStencilBuffer => s.m_pDepthStencilBuffer
  | .DepthStencilView => s.m_pDepthStencilView
  | .RenderTargetBuffer => s.m_pRenderTargetBuffer
  | .RenderTargetView => s.m_pRenderTargetView
  | .EffectSamplerVariable => s.m_pEffectSamplerVariable
  | .SamplerState => s.m_pSamplerState

/-- A member function was called through a null pointer. -/
inductive Fault where
  | nullDevice
  | nullDeviceContext
  | nullEffectSamplerVariable
  | nullMesh
  | nullSwapChain
  deriving DecidableEq, Repr

/-- How a modelled function ends: it returns, or it calls through a null pointer; the state
is the one reached at that point. -/
inductive Outcome where
  | done (s : Renderer)
  | fault (f : Fault) (s : Renderer)
  deriving DecidableEq, Repr

/-- The state an outcome ends in. -/
def Outcome.state : Outcome → Renderer
  | .done s => s
  | .fault _ s => s

/-- What `CreateSamplerState` answers: the status code, and whether on failure the runtime
stores a null pointer in the out-parameter (the source itself never resets the member). -/
structure SamplerReply where
  hr : HRESULT
  clearsOut : Bool
  deriving DecidableEq, Repr

/-! ## The functions of Renderer.cpp -/

/-- `Renderer::InitializeDirectX` (lines 124-239). `codes k` is the status code step `k`
returns when it is called; a successful step stores a new object in its out-parameter, a
failing step leaves the member as it was (null, in the one call the constructor makes). -/
def InitializeDirectX (codes : Step → HRESULT) (s : Renderer) : HRESULT × Renderer :=
  -- 1. Create Device & DeviceContext
  let result := codes .D3D11CreateDevice
  let s := s.emit (.call .D3D11CreateDevice result)
  if FAILED result then (result, s) else
  let dev := s.nextHandle
  let ctx := s.nextHandle + 1
  let s := { s with m_pDevice := some dev, m_pDeviceContext := some ctx,
                    nextHandle := s.nextHandle + 2,
                    trace := s.trace ++ [Event.acquire .Device dev, Event.acquire .DeviceContext ctx] }
  let result := codes .CreateDXGIFactory1
  let s := s.emit (.call .CreateDXGIFactory1 result)
  if FAILED result then (result, s) else
  let pDxgiFactory := s.nextHandle
  let s := { s with nextHandle := s.nextHandle + 1,
                    trace := s.trace ++ [Event.acquire .Factory pDxgiFactory] }
  -- 2. Create swapchain
  let result := codes .CreateSwapChain
  let s := s.emit (.call .CreateSwapChain result)
  if FAILED result then (result, s) else
  let sc := s.nextHandle
  let s := { s with m_pSwapChain := some sc, nextHandle := s.nextHandle + 1,
                    trace := s.trace ++ [Event.acquire .SwapChain sc] }
  -- 3. Create DepthStencil (DS) & DepthStencilView (DSV)
  let result := codes .CreateTexture2D
  let s := s.emit (.call .CreateTexture2D result)
  if FAILED result then (result, s) else
  let dsb := s.nextHandle
  let s := { s with m_pDepthStencilBuffer := some dsb, nextHandle := s.nextHandle + 1,
                    trace := s.trace ++ [Event.acquire .DepthStencilBuffer dsb] }
  let result := codes .CreateDepthStencilView
  let s := s.emit (.call .CreateDepthStencilView result)
  if FAILED result then (result, s) else
  let dsv := s.nextHandle
  let s := { s with m_pDepthStencilView := some dsv, nextHandle := s.nextHandle + 1,
                    trace := s.trace ++ [Event.acquire .DepthStencilView dsv] }
  -- 4. Create RenderTarget (RT) and RenderTargetView (RTV)
  let result := codes .GetBuffer
  let s := s.emit (.call .GetBuffer result)
  if FAILED result then (result, s) else
  let rtb := s.nextHandle
  let s := { s with m_pRenderTargetBuffer := some rtb, nextHandle := s.nextHandle + 1,
                    trace := s.trace ++ [Event.acquire .RenderTargetBuffer rtb] }
  let result := codes .CreateRenderTargetView
  let s := s.emit (.call .CreateRenderTargetView result)
  if FAILED result then (result, s) else
  let rtv := s.nextHandle
  let s := { s with m_pRenderTargetView := some rtv, nextHandle := s.nextHandle + 1,
                    trace := s.trace ++ [Event.acquire .RenderTargetView rtv] }
  -- 5. Bind RTV and DSV to Output Merger Stage
  let s := s.emit (.OMSetRenderTargets ctx s.m_pRenderTargetView s.m_pDepthStencilView)
  -- 6. Set viewport
  let s := s.emit (.RSSetViewports ctx)
  (S_OK, s)

/-- `Renderer::PressFilterMethod` (lines 241-268). -/
def PressFilterMethod (reply : SamplerReply) (s : Renderer) : Outcome :=
  let s := { s with m_FilteringMethod :=
                      FilteringMethods.ofInt ((s.m_FilteringMethod.toInt + 1) % 3) }
  let s := match s.m_FilteringMethod with
    | .Point => { s with m_SamplerDesc_Filter := D3D11_FILTER_MIN_MAG_MIP_POINT }
    | .Linear => { s with m_SamplerDesc_Filter := D3D11_FILTER_MIN_MAG_MIP_LINEAR }
    | .Anisotropic => { s with m_SamplerDesc_Filter := D3D11_FILTER_ANISOTROPIC }
  let s := match s.m_pSamplerState with
    | some old => s.emit (.release old)
    | none => s
  match s.m_pDevice with
  | none => .fault .nullDevice s
  | some dev =>
    let result := reply.hr
    let s := s.emit (.CreateSamplerState dev s.m_SamplerDesc_Filter result)
    if FAILED result then
      .done (if reply.clearsOut then { s with m_pSamplerState := none } else s)
    else
      let sampler := s.nextHandle
      let s := { s with m_pSamplerState := some sampler, nextHandle := s.nextHandle + 1,
                        trace := s.trace ++ [Event.acquire .SamplerState sampler] }
      match s.m_pEffectSamplerVariable with
      | none => .fault .nullEffectSamplerVariable s
      | some var =>
        .done ({ s with boundSampler := some sampler }.emit (.SetSampler var 0 sampler))

/-- `Renderer::CreateMesh` (lines 270-278): the mesh is built from `m_pDevice`, whatever it
holds; the mesh class itself is outside the modelled source. -/
def CreateMesh (s : Renderer) : Renderer :=
  let mesh := s.nextHandle
  { s with m_pMesh := some mesh, nextHandle := s.nextHandle + 1,
           trace := s.trace ++ [Event.newMesh s.m_pDevice] }

/-- The constructor `Renderer::Renderer` up to line 47, run on the freshly initialised
members `s`: `InitializeDirectX`, the assignment of the status flag, `CreateMesh`, and the
effect sampler variable taken from the mesh. -/
def Renderer.ctorInit (codes : Step → HRESULT) (s : Renderer) : Renderer :=
  -- lines 12-14 (window size, camera) touch no modelled member
  let r := InitializeDirectX codes s
  let s := if r.1 = S_OK then { r.2 with m_IsInitialized := true } else r.2
  let s := CreateMesh s
  -- m_pEffectSamplerVariable = m_pMesh->GetSampleVar()
  let var := s.nextHandle
  -- lines 32-47 print a diagnostic and fill the descriptor fields other than Filter
  { s with m_pEffectSamplerVariable := some var, nextHandle := s.nextHandle + 1,
           trace := s.trace ++ [Event.acquire .EffectSamplerVariable var] }

/-- The constructor `Renderer::Renderer` (lines 8-49): the part above, then the first
`PressFilterMethod` call at line 48. -/
def Renderer.ctor (codes : Step → HRESULT) (reply : SamplerReply) (s : Renderer) : Outcome :=
  PressFilterMethod reply (Renderer.ctorInit codes s)

/-- The destructor `Renderer::~Renderer` (lines 51-94). -/
def Renderer.dtor (s : Renderer) : Renderer :=
  let s := match s.m_pRenderTargetView with
    | some h => s.emit (.release h)
    | none => s
  let s := match s.m_pRenderTargetBuffer with
    | some h => s.emit (.release h)
    | none => s
  let s := match s.m_pDepthStencilView with
    | some h => s.emit (.release h)
    | none => s
  let s := match s.m_pDepthStencilBuffer with
    | some h => s.emit (.release h)
    | none => s
  let s := match s.m_pSwapChain with
    | some h => s.emit (.release h)
    | none => s
  let s := match s.m_pDeviceContext with
    | some h => ((s.emit (.ClearState h)).emit (.Flush h)).emit (.release h)
    | none => s
  let s := match s.m_pDevice with
    | some h => s.emit (.release h)
    | none => s
  let s := match s.m_pEffectSamplerVariable with
    | some h => s.emit (.release h)
    | none => s
  let s := match s.m_pSamplerState with
    | some h => s.emit (.release h)
    | none => s
  (s.emit .deleteMesh).emit .deleteCamera

/-- `Renderer::Render` (lines 107-122). -/
def Render (s : Renderer) : Outcome :=
  if !s.m_IsInitialized then .done s else
  match s.m_pDeviceContext with
  | none => .fault .nullDeviceContext s
  | some ctx =>
    let s := s.emit (.ClearRenderTargetView ctx s.m_pRenderTargetView)
    let s := s.emit (.ClearDepthStencilView ctx s.m_pDepthStencilView)
    match s.m_pMesh with
    | none => .fault .nullMesh s
    | some mesh =>
      let s := s.emit (.MeshRender mesh ctx)
      match s.m_pSwapChain with
      | none => .fault .nullSwapChain s
      | some sc => .done (s.emit (.Present sc))

/-! ## Runs and trace observations -/

/-- A finite sequence of `PressFilterMethod` calls, one reply per call; it stops at the
first call that goes through a null pointer. -/
def pressAll : List SamplerReply → Renderer → Outcome
  | [], s => .done s
  | reply :: rest, s =>
    match PressFilterMethod reply s with
    | .done s1 => pressAll rest s1
    | .fault f s1 => .fault f s1

/-- The events a function appended, given the state before and the state after it. -/
def emitted (before after : Renderer) : List Event :=
  after.trace.drop before.trace.length

/-- The handles on which `Release` was called, in order. -/
def releases : List Event → List Handle
  | [] => []
  | .release h :: es => h :: releases es
  | _ :: es => releases es

/-- The objects handed to the renderer, in order, with their kind. -/
def acquired : List Event → List (Res × Handle)
  | [] => []
  | .acquire r h :: es => (r, h) :: acquired es
  | _ :: es => acquired es

/-- The creation steps of `InitializeDirectX` that were called, in order. -/
def attempted : List Event → List Step
  | [] => []
  | .call k _ :: es => k :: attempted es
  | _ :: es => attempted es

/-- An event that is a call on the GPU pipeline made by `Render`: a clear of the render
target, a clear of the depth/stencil view, the mesh draw, or the present. -/
def Event.isRenderCall : Event → Bool
  | .ClearRenderTargetView _ _ => true
  | .ClearDepthStencilView _ _ => true
  | .MeshRender _ _ => true
  | .Present _ => true
  | _ => false

/-- The cyclic order of the filtering methods given by the spec. -/
def cyclicOrder : List FilteringMethods := [.Point, .Linear, .Anisotropic]

/-- The `D3D11_FILTER` constant the switch of `PressFilterMethod` assigns for a method. -/
def filterOf : FilteringMethods → D3D11_FILTER
  | .Point => D3D11_FILTER_MIN_MAG_MIP_POINT
  | .Linear => D3D11_FILTER_MIN_MAG_MIP_LINEAR
  | .Anisotropic => D3D11_FILTER_ANISOTROPIC

/-- The order in which the destructor visits the member pointers, as the spec lists it. -/
def teardownOrder : List Res :=
  [.RenderTargetView, .RenderTargetBuffer, .DepthStencilView, .DepthStencilBuffer,
   .SwapChain, .DeviceContext, .Device, .EffectSamplerVariable, .SamplerState]

/-- The kinds of object a successful step hands out, in the order of its out-parameters. -/
def Step.creates : Step → List Res
  | .D3D11CreateDevice => [.Device, .DeviceContext]
  | .CreateDXGIFactory1 => [.Factory]
  | .CreateSwapChain => [.SwapChain]
  | .CreateTexture2D => [.DepthStencilBuffer]
  | .CreateDepthStencilView => [.DepthStencilView]
  | .GetBuffer => [.RenderTargetBuffer]
  | .CreateRenderTargetView => [.RenderTargetView]

/-- An event that binds the views to the output merger or sets the viewport. -/
def Event.isBinding : Event → Bool
  | .OMSetRenderTargets _ _ _ => true
  | .RSSetViewports _ => true
  | _ => false

/-- Every step returns `S_OK`. -/
def allOk : Step → HRESULT := fun _ => S_OK

/-- Only the given step fails, with `E_FAIL`. -/
def failAt (k : Step) : Step → HRESULT := fun j => if j = k then E_FAIL else S_OK


/-- The state a construction leaves when every step and the sampler creation return
`S_OK`, for initial method Anisotropic: the method is Point, the `Filter` field is Point's
constant, and the sampler object 10 is held in `m_pSamplerState` and bound to slot 0. -/
def readyState : Renderer :=
  (Renderer.ctor allOk ⟨S_OK, true⟩ (Renderer.fresh .Anisotropic 0)).state

/-- A state a caller of the renderer can hold: the constructor returned, and then a finite
run of `PressFilterMethod` calls returned, whatever the status codes of the creation calls
and whatever method and `Filter` value the members started with. -/
def Reachable (s : Renderer) : Prop :=
  ∃ (codes : Step → HRESULT) (reply : SamplerReply) (replies : List SamplerReply)
    (mode : FilteringMethods) (filter : D3D11_FILTER) (s1 : Renderer),
    Renderer.ctor codes reply (Renderer.fresh mode filter) = .done s1 ∧
    pressAll replies s1 = .done s

/-- A sampler creation that fails with `E_FAIL`; the runtime nulls the out-parameter. -/
def failReply : SamplerReply := ⟨E_FAIL, true⟩

/-- A sampler creation that fails with `E_FAIL`; the out-parameter is left as it was. -/
def failReplyKeep : SamplerReply := ⟨E_FAIL, false⟩

/-- A sampler creation that returns `S_OK`. -/
def okReply : SamplerReply := ⟨S_OK, true⟩

/-- The handles of the objects obtained in a trace that the renderer keeps in a member
pointer (all but the factory), in the order they were obtained. -/
def owned (tr : List Event) : List Handle :=
  ((acquired tr).filter (fun p => decide (p.1 ≠ Res.Factory))).map Prod.snd

/-! ## Teardown -/

/-- The events of the idiom "if the pointer is set, call Release through it". -/
def relOf : Option Handle → List Event
  | some h => [.release h]
  | none => []

/-- The events of the destructor's block for the device context. -/
def ctxOf : Option Handle → List Event
  | some h => [.ClearState h, .Flush h, .release h]
  | none => []

/-- The conditional release of one pointer, as a state transformer. -/
def relStep (p : Option Handle) (s : Renderer) : Renderer :=
  match p with
  | some h => s.emit (.release h)
  | none => s

/-- The destructor's block for the device context, as a state transformer. -/
def ctxStep (p : Option Handle) (s : Renderer) : Renderer :=
  match p with
  | some h => ((s.emit (.ClearState h)).emit (.Flush h)).emit (.release h)
  | none => s

/-- Bookkeeping of the sampler objects between a state `s0` in which no sampler is held and
a later state `s`: the trace grew by some events `T` whose acquisitions are the samplers `L`,
in order; every sampler of `L` has been released in `T` except the one `m_pSamplerState`
holds, which is the last; the samplers are distinct and were numbered after `s0`; and no
member pointer other than `m_pSamplerState` changed. -/
def PressInv (s0 s : Renderer) : Prop :=
  ∃ (T : List Event) (L : List Handle),
    s.trace = s0.trace ++ T ∧
    acquired T = L.map (fun h => (Res.SamplerState, h)) ∧
    L = releases T ++ s.m_pSamplerState.toList ∧
    (∀ h ∈ L, s0.nextHandle ≤ h ∧ h < s.nextHandle) ∧
    L.Nodup ∧
    s0.nextHandle ≤ s.nextHandle ∧
    (∀ r : Res, r ≠ Res.SamplerState → s.slot r = s0.slot r)

/-- What the lifetime theorem needs of the state `s0` the constructor reaches at line 47:
no sampler is held, nothing has been released, the device and the effect variable are
present, every object obtained so far is numbered below `nextHandle`, is not a sampler and,
unless it is the factory, sits in its member pointer; no two member pointers hold the same
object; and the factory sits in no member pointer. -/
def CtorBase (s0 : Renderer) : Prop :=
  s0.m_pSamplerState = none ∧
  releases s0.trace = [] ∧
  (∃ dev, s0.m_pDevice = some dev) ∧
  (∃ var, s0.m_pEffectSamplerVariable = some var) ∧
  (∀ r h, (r, h) ∈ acquired s0.trace →
    h < s0.nextHandle ∧ r ≠ Res.SamplerState ∧ (r ≠ Res.Factory → s0.slot r = some h)) ∧
  (∀ r h, s0.slot r = some h →
    h < s0.nextHandle ∧ ∀ r2, s0.slot r2 = some h → r2 = r) ∧
  (∀ h, (Res.Factory, h) ∈ acquired s0.trace → ∀ r, s0.slot r ≠ some h)

theorem relStep_eq (p : Option Handle) (s : Renderer) :
    relStep p s = { s with trace := s.trace ++ relOf p } := by
  cases p <;> simp [relStep, relOf, Renderer.emit]

theorem ctxStep_eq (p : Option Handle) (s : Renderer) :
    ctxStep p s = { s with trace := s.trace ++ ctxOf p } := by
  cases p <;> simp [ctxStep, ctxOf, Renderer.emit]

theorem releases_append (xs ys : List Event) :
    releases (xs ++ ys) = releases xs ++ releases ys := by
  induction xs with
  | nil => rfl
  | cons e es ih => cases e <;> simp [releases, ih]

theorem releases_relOf (p : Option Handle) : releases (relOf p) = p.toList := by
  cases p <;> rfl

theorem releases_ctxOf (p : Option Handle) : releases (ctxOf p) = p.toList := by
  cases p <;> rfl

/-- The destructor as a chain of its nine conditional blocks, each reading its pointer
from the state the previous block left. -/
theorem dtor_steps (s : Renderer) :
    Renderer.dtor s =
      (let s1 := relStep s.m_pRenderTargetView s
       let s2 := relStep s1.m_pRenderTargetBuffer s1
       let s3 := relStep s2.m_pDepthStencilView s2
       let s4 := relStep s3.m_pDepthStencilBuffer s3
       let s5 := relStep s4.m_pSwapChain s4
       let s6 := ctxStep s5.m_pDeviceContext s5
       let s7 := relStep s6.m_pDevice s6
       let s8 := relStep s7.m_pEffectSamplerVariable s7
       let s9 := relStep s8.m_pSamplerState s8
       (s9.emit .deleteMesh).emit .deleteCamera) := rfl

/-- The destructor changes nothing but the trace, to which it appends the events of its
nine blocks and the two deletions. -/
theorem dtor_eq (s : Renderer) :
    Renderer.dtor s =
      { s with trace := s.trace ++ (relOf s.m_pRenderTargetView ++
        relOf s.m_pRenderTargetBuffer ++ relOf s.m_pDepthStencilView ++
        relOf s.m_pDepthStencilBuffer ++ relOf s.m_pSwapChain ++ ctxOf s.m_pDeviceContext ++
        relOf s.m_pDevice ++ relOf s.m_pEffectSamplerVariable ++ relOf s.m_pSamplerState ++
        [Event.deleteMesh, Event.deleteCamera]) } := by
  rw [dtor_steps]
  simp [relStep_eq, ctxStep_eq, Renderer.emit]

/-- The events the destructor appends. -/
theorem dtor_emitted (s : Renderer) :
    emitted s (Renderer.dtor s) =
      relOf s.m_pRenderTargetView ++
        relOf s.m_pRenderTargetBuffer ++ relOf s.m_pDepthStencilView ++
        relOf s.m_pDepthStencilBuffer ++ relOf s.m_pSwapChain ++ ctxOf s.m_pDeviceContext ++
        relOf s.m_pDevice ++ relOf s.m_pEffectSamplerVariable ++ relOf s.m_pSamplerState ++
        [Event.deleteMesh, Event.deleteCamera] := by
  rw [dtor_eq]
  simp [emitted]

theorem filterMap_slot_teardownOrder (s : Renderer) :
    teardownOrder.filterMap s.slot =
      s.m_pRenderTargetView.toList ++ s.m_pRenderTargetBuffer.toList ++
        s.m_pDepthStencilView.toList ++ s.m_pDepthStencilBuffer.toList ++
        s.m_pSwapChain.toList ++ s.m_pDeviceContext.toList ++ s.m_pDevice.toList ++
        s.m_pEffectSamplerVariable.toList ++ s.m_pSamplerState.toList := by
  have h : ∀ (r : Res) (rs : List Res),
      (r :: rs).filterMap s.slot = (s.slot r).toList ++ rs.filterMap s.slot := by
    intro r rs
    cases hr : s.slot r <;> simp [List.filterMap_cons, hr]
  simp [teardownOrder, h, Renderer.slot]

/-- C4. For every state of the renderer, the destructor leaves the earlier trace in place
and the sequence of `Release` calls it makes is exactly the list render-target view,
render-target buffer, depth-stencil view, depth-stencil buffer, swap chain, device context,
device, effect sampler variable, sampler state, restricted to the member pointers that are
set: each set pointer is released once, in that order, and a null pointer is skipped. The
number of `Release` calls on an object equals the number of member pointers holding it, and
the only other calls are `ClearState` and `Flush` on the device context when it is set and
the deletion of the mesh and the camera at the end. -/
theorem dtor_releases_present_in_order (s : Renderer) :
    (Renderer.dtor s).trace = s.trace ++ emitted s (Renderer.dtor s) ∧
    releases (emitted s (Renderer.dtor s)) = teardownOrder.filterMap s.slot ∧
    (∀ h : Handle, (releases (emitted s (Renderer.dtor s))).count h =
      teardownOrder.countP (fun r => s.slot r = some h)) ∧
    emitted s (Renderer.dtor s) =
      relOf s.m_pRenderTargetView ++ relOf s.m_pRenderTargetBuffer ++
        relOf s.m_pDepthStencilView ++ relOf s.m_pDepthStencilBuffer ++
        relOf s.m_pSwapChain ++ ctxOf s.m_pDeviceContext ++ relOf s.m_pDevice ++
        relOf s.m_pEffectSamplerVariable ++ relOf s.m_pSamplerState ++
        [Event.deleteMesh, Event.deleteCamera] := by
  have hrel : releases (emitted s (Renderer.dtor s)) = teardownOrder.filterMap s.slot := by
    rw [dtor_emitted, filterMap_slot_teardownOrder]
    simp [releases_append, releases_relOf, releases_ctxOf, releases]
  refine ⟨?_, hrel, ?_, dtor_emitted s⟩
  · rw [dtor_emitted]
    rw [dtor_eq]
  · intro h
    rw [hrel]
    generalize teardownOrder = l
    induction l with
    | nil => rfl
    | cons r rs ih =>
      cases hr : s.slot r with
      | none => simp [List.filterMap_cons, hr, ih]
      | some g =>
        by_cases hg : g = h
        · simp [List.filterMap_cons, hr, ih, hg]
        · simp [List.filterMap_cons, hr, ih, hg, List.count_cons]

/-! ## Initialisation -/

/-- C3. For every assignment of status codes to the seven creation steps and every start
state: if step `k` fails and no earlier step fails, `InitializeDirectX` returns the code of
step `k` unchanged, the steps it called are exactly those up to and including `k`, it made
neither the output-merger binding nor the viewport binding, it released nothing, the objects
it obtained are exactly those of the steps before `k`, and each of them that has a member
pointer is held in it; if no step fails it returns `S_OK` after calling all seven steps and
making both bindings, again without a release and with every object it keeps held. -/
theorem InitializeDirectX_first_failure (codes : Step → HRESULT) (s : Renderer) (k : Step) :
    (FAILED (codes k) = true → (∀ j : Step, j.idx < k.idx → FAILED (codes j) = false) →
      (InitializeDirectX codes s).1 = codes k ∧
      attempted (emitted s (InitializeDirectX codes s).2) = Step.all.take (k.idx + 1) ∧
      (emitted s (InitializeDirectX codes s).2).filter Event.isBinding = [] ∧
      releases (emitted s (InitializeDirectX codes s).2) = [] ∧
      (acquired (emitted s (InitializeDirectX codes s).2)).map Prod.fst =
        (Step.all.take k.idx).flatMap Step.creates ∧
      ∀ r h, (r, h) ∈ acquired (emitted s (InitializeDirectX codes s).2) → r ≠ Res.Factory →
        (InitializeDirectX codes s).2.slot r = some h) ∧
    ((∀ j : Step, FAILED (codes j) = false) →
      (InitializeDirectX codes s).1 = S_OK ∧
      attempted (emitted s (InitializeDirectX codes s).2) = Step.all ∧
      ((emitted s (InitializeDirectX codes s).2).filter Event.isBinding).length = 2 ∧
      releases (emitted s (InitializeDirectX codes s).2) = [] ∧
      (acquired (emitted s (InitializeDirectX codes s).2)).map Prod.fst =
        Step.all.flatMap Step.creates ∧
      ∀ r h, (r, h) ∈ acquired (emitted s (InitializeDirectX codes s).2) → r ≠ Res.Factory →
        (InitializeDirectX codes s).2.slot r = some h) := by
  constructor
  · intro hk hfirst
    have h0 := hfirst .D3D11CreateDevice
    have h1 := hfirst .CreateDXGIFactory1
    have h2 := hfirst .CreateSwapChain
    have h3 := hfirst .CreateTexture2D
    have h4 := hfirst .CreateDepthStencilView
    have h5 := hfirst .GetBuffer
    have h6 := hfirst .CreateRenderTargetView
    cases k <;> simp [Step.idx] at h0 h1 h2 h3 h4 h5 h6 <;>
      simp [InitializeDirectX, *, emitted, Renderer.emit, attempted, acquired, releases,
        Step.all, Step.idx, Step.creates, Event.isBinding, Renderer.slot] <;>
      (intro r h hh hne
       cases r <;> simp_all)
  · intro hall
    simp [InitializeDirectX, hall, emitted, Renderer.emit, attempted, acquired, releases,
        Step.all, Step.creates, Event.isBinding, Renderer.slot]
    intro r h hh hne
    cases r <;> simp_all

/-- A failing status code is not `S_OK`. -/
theorem FAILED_ne_S_OK (hr : HRESULT) (h : FAILED hr = true) : hr ≠ S_OK := by
  intro hc
  rw [hc] at h
  simp [FAILED, S_OK] at h

/-- The value `InitializeDirectX` returns is `S_OK` exactly when no step fails. -/
theorem InitializeDirectX_ok_iff (codes : Step → HRESULT) (s : Renderer) :
    (InitializeDirectX codes s).1 = S_OK ↔ ∀ k : Step, FAILED (codes k) = false := by
  have hne := FAILED_ne_S_OK
  by_cases h0 : FAILED (codes .D3D11CreateDevice) = true
  · have hc := hne _ h0
    simp [InitializeDirectX, h0, hc]
    exact ⟨_, h0⟩
  · simp only [Bool.not_eq_true] at h0
    by_cases h1 : FAILED (codes .CreateDXGIFactory1) = true
    · have hc := hne _ h1
      simp [InitializeDirectX, h0, h1, hc]
      exact ⟨_, h1⟩
    · simp only [Bool.not_eq_true] at h1
      by_cases h2 : FAILED (codes .CreateSwapChain) = true
      · have hc := hne _ h2
        simp [InitializeDirectX, h0, h1, h2, hc]
        exact ⟨_, h2⟩
      · simp only [Bool.not_eq_true] at h2
        by_cases h3 : FAILED (codes .CreateTexture2D) = true
        · have hc := hne _ h3
          simp [InitializeDirectX, h0, h1, h2, h3, hc]
          exact ⟨_, h3⟩
        · simp only [Bool.not_eq_true] at h3
          by_cases h4 : FAILED (codes .CreateDepthStencilView) = true
          · have hc := hne _ h4
            simp [InitializeDirectX, h0, h1, h2, h3, h4, hc]
            exact ⟨_, h4⟩
          · simp only [Bool.not_eq_true] at h4
            by_cases h5 : FAILED (codes .GetBuffer) = true
            · have hc := hne _ h5
              simp [InitializeDirectX, h0, h1, h2, h3, h4, h5, hc]
              exact ⟨_, h5⟩
            · simp only [Bool.not_eq_true] at h5
              by_cases h6 : FAILED (codes .CreateRenderTargetView) = true
              · have hc := hne _ h6
                simp [InitializeDirectX, h0, h1, h2, h3, h4, h5, h6, hc]
                exact ⟨_, h6⟩
              · simp only [Bool.not_eq_true] at h6
                simp [InitializeDirectX, h0, h1, h2, h3, h4, h5, h6]
                intro k
                cases k <;> assumption

/-! ## The filtering method -/

/-- The method `PressFilterMethod` moves to: `(static_cast<int>(m) + 1) % 3` cast back. -/
theorem ofInt_succ_mod (m : FilteringMethods) :
    FilteringMethods.ofInt ((m.toInt + 1) % 3) =
      match m with
      | .Point => .Linear
      | .Linear => .Anisotropic
      | .Anisotropic => .Point := by
  cases m <;> rfl

/-- `PressFilterMethod` when `m_pDevice` is null: the method and the `Filter` field are
advanced, the old sampler (if any) is released, and the call through the device faults. -/
theorem press_no_device_eq (reply : SamplerReply) (s : Renderer)
    (hd : s.m_pDevice = none) :
    PressFilterMethod reply s = .fault .nullDevice
      { s with m_FilteringMethod := FilteringMethods.ofInt ((s.m_FilteringMethod.toInt + 1) % 3)
               m_SamplerDesc_Filter :=
                 filterOf (FilteringMethods.ofInt ((s.m_FilteringMethod.toInt + 1) % 3))
               trace := s.trace ++ relOf s.m_pSamplerState } := by
  rcases s with ⟨i, dev, ctx, sc, dsb, dsv, rtb, rtv, esv, ss, mesh, fm, fl, tr, nx, bs⟩
  simp only at hd
  subst hd
  cases fm <;> cases ss <;> simp [PressFilterMethod, ofInt_succ_mod, filterOf, relOf, Renderer.emit]

/-- `PressFilterMethod` when the device is present and sampler creation fails. -/
theorem press_failed_eq (reply : SamplerReply) (s : Renderer) (dev : Handle)
    (hd : s.m_pDevice = some dev) (hf : FAILED reply.hr = true) :
    PressFilterMethod reply s = .done
      { s with m_FilteringMethod := FilteringMethods.ofInt ((s.m_FilteringMethod.toInt + 1) % 3)
               m_SamplerDesc_Filter :=
                 filterOf (FilteringMethods.ofInt ((s.m_FilteringMethod.toInt + 1) % 3))
               m_pSamplerState := if reply.clearsOut then none else s.m_pSamplerState
               trace := s.trace ++ relOf s.m_pSamplerState ++
                 [Event.CreateSamplerState dev
                   (filterOf (FilteringMethods.ofInt ((s.m_FilteringMethod.toInt + 1) % 3)))
                   reply.hr] } := by
  rcases s with ⟨i, d, ctx, sc, dsb, dsv, rtb, rtv, esv, ss, mesh, fm, fl, tr, nx, bs⟩
  simp only at hd
  subst hd
  cases hc : reply.clearsOut <;> cases fm <;> cases ss <;>
    simp [PressFilterMethod, ofInt_succ_mod, filterOf, relOf, Renderer.emit, hf, hc]

/-- `PressFilterMethod` when the device and the effect variable are present and sampler
creation succeeds. -/
theorem press_ok_eq (reply : SamplerReply) (s : Renderer) (dev var : Handle)
    (hd : s.m_pDevice = some dev) (hv : s.m_pEffectSamplerVariable = some var)
    (hf : FAILED reply.hr = false) :
    PressFilterMethod reply s = .done
      { s with m_FilteringMethod := FilteringMethods.ofInt ((s.m_FilteringMethod.toInt + 1) % 3)
               m_SamplerDesc_Filter :=
                 filterOf (FilteringMethods.ofInt ((s.m_FilteringMethod.toInt + 1) % 3))
               m_pSamplerState := some s.nextHandle
               nextHandle := s.nextHandle + 1
               boundSampler := some s.nextHandle
               trace := s.trace ++ relOf s.m_pSamplerState ++
                 [Event.CreateSamplerState dev
                   (filterOf (FilteringMethods.ofInt ((s.m_FilteringMethod.toInt + 1) % 3)))
                   reply.hr,
                  Event.acquire .SamplerState s.nextHandle,
                  Event.SetSampler var 0 s.nextHandle] } := by
  rcases s with ⟨i, d, ctx, sc, dsb, dsv, rtb, rtv, esv, ss, mesh, fm, fl, tr, nx, bs⟩
  simp only at hd hv
  subst hd hv
  cases fm <;> cases ss <;>
    simp [PressFilterMethod, ofInt_succ_mod, filterOf, relOf, Renderer.emit, hf]

/-- `PressFilterMethod` when the device is present, sampler creation succeeds and the
effect variable pointer is null. -/
theorem press_no_var_eq (reply : SamplerReply) (s : Renderer) (dev : Handle)
    (hd : s.m_pDevice = some dev) (hv : s.m_pEffectSamplerVariable = none)
    (hf : FAILED reply.hr = false) :
    PressFilterMethod reply s = .fault .nullEffectSamplerVariable
      { s with m_FilteringMethod := FilteringMethods.ofInt ((s.m_FilteringMethod.toInt + 1) % 3)
               m_SamplerDesc_Filter :=
                 filterOf (FilteringMethods.ofInt ((s.m_FilteringMethod.toInt + 1) % 3))
               m_pSamplerState := some s.nextHandle
               nextHandle := s.nextHandle + 1
               trace := s.trace ++ relOf s.m_pSamplerState ++
                 [Event.CreateSamplerState dev
                   (filterOf (FilteringMethods.ofInt ((s.m_FilteringMethod.toInt + 1) % 3)))
                   reply.hr,
                  Event.acquire .SamplerState s.nextHandle] } := by
  rcases s with ⟨i, d, ctx, sc, dsb, dsv, rtb, rtv, esv, ss, mesh, fm, fl, tr, nx, bs⟩
  simp only at hd hv
  subst hd hv
  cases fm <;> cases ss <;>
    simp [PressFilterMethod, ofInt_succ_mod, filterOf, relOf, Renderer.emit, hf]

/-- In every case `PressFilterMethod` leaves the status flag as it was and advances the
method and the `Filter` field. -/
theorem press_state (reply : SamplerReply) (s : Renderer) :
    (PressFilterMethod reply s).state.m_IsInitialized = s.m_IsInitialized ∧
    (PressFilterMethod reply s).state.m_FilteringMethod =
      FilteringMethods.ofInt ((s.m_FilteringMethod.toInt + 1) % 3) ∧
    (PressFilterMethod reply s).state.m_SamplerDesc_Filter =
      filterOf (FilteringMethods.ofInt ((s.m_FilteringMethod.toInt + 1) % 3)) := by
  cases hd : s.m_pDevice with
  | none => rw [press_no_device_eq reply s hd]; simp [Outcome.state]
  | some dev =>
    cases hf : FAILED reply.hr with
    | true => rw [press_failed_eq reply s dev hd hf]; simp [Outcome.state]
    | false =>
      cases hv : s.m_pEffectSamplerVariable with
      | none => rw [press_no_var_eq reply s dev hd hv hf]; simp [Outcome.state]
      | some var => rw [press_ok_eq reply s dev var hd hv hf]; simp [Outcome.state]

/-- `InitializeDirectX` never writes the status flag. -/
theorem InitializeDirectX_flag (codes : Step → HRESULT) (s : Renderer) :
    (InitializeDirectX codes s).2.m_IsInitialized = s.m_IsInitialized := by
  simp only [InitializeDirectX]
  split_ifs <;> rfl

/-- The status flag when the constructor ends (by returning or by faulting) is the value
assigned at line 20: true when `InitializeDirectX` returned `S_OK`, else the initial one. -/
theorem ctor_flag (codes : Step → HRESULT) (reply : SamplerReply) (s : Renderer) :
    (Renderer.ctor codes reply s).state.m_IsInitialized =
      if (InitializeDirectX codes s).1 = S_OK then true else s.m_IsInitialized := by
  unfold Renderer.ctor
  rw [(press_state _ _).1]
  unfold Renderer.ctorInit
  simp only []
  by_cases h : (InitializeDirectX codes s).1 = S_OK
  · simp [h, CreateMesh]
  · simp [h, CreateMesh, InitializeDirectX_flag]

/-- C2. The status flag the constructor leaves is true exactly when every creation step of
`InitializeDirectX` succeeded; and in every state whose flag is false `Render` returns at
once with the state and the trace unchanged: no clear of the render target, no clear of the
depth/stencil view, no mesh draw and no present is issued. -/
theorem flag_iff_all_steps_and_Render_guard (codes : Step → HRESULT) (reply : SamplerReply)
    (mode : FilteringMethods) (filter : D3D11_FILTER) (s : Renderer)
    (hs : s.m_IsInitialized = false) :
    ((Renderer.ctor codes reply (Renderer.fresh mode filter)).state.m_IsInitialized = true ↔
      ∀ k : Step, FAILED (codes k) = false) ∧
    Render s = .done s ∧
    (Render s).state.trace = s.trace ∧
    (emitted s (Render s).state).filter Event.isRenderCall = [] := by
  have hr : Render s = .done s := by simp [Render, hs]
  refine ⟨?_, hr, ?_, ?_⟩
  · rw [ctor_flag, ← InitializeDirectX_ok_iff codes (Renderer.fresh mode filter)]
    simp [Renderer.fresh]
  · rw [hr]; rfl
  · rw [hr]; simp [emitted, Outcome.state]

/-- Witness of C2: with every step succeeding the flag is set, and `Render` on a
freshly initialised (flag false) state does nothing. -/
theorem flag_iff_all_steps_and_Render_guard_witness :
    (Renderer.fresh .Point 0).m_IsInitialized = false ∧
    (((Renderer.ctor allOk ⟨S_OK, true⟩ (Renderer.fresh .Point 0)).state.m_IsInitialized = true ↔
      ∀ k : Step, FAILED (allOk k) = false) ∧
    Render (Renderer.fresh .Point 0) = .done (Renderer.fresh .Point 0) ∧
    (Render (Renderer.fresh .Point 0)).state.trace = (Renderer.fresh .Point 0).trace ∧
    (emitted (Renderer.fresh .Point 0) (Render (Renderer.fresh .Point 0)).state).filter
      Event.isRenderCall = []) :=
  ⟨rfl, flag_iff_all_steps_and_Render_guard allOk ⟨S_OK, true⟩ .Point 0
    (Renderer.fresh .Point 0) rfl⟩

/-- The underlying value of the method after one advance. -/
theorem toInt_ofInt_succ_mod (m : FilteringMethods) :
    (FilteringMethods.ofInt ((m.toInt + 1) % 3)).toInt = (m.toInt + 1) % 3 := by
  cases m <;> rfl

/-- A run of successful `PressFilterMethod` calls on a state with the device and the effect
variable present returns, keeps both pointers, advances the underlying value of the method
by the number of calls modulo 3, and leaves the `Filter` field matching the method if it
matched before or at least one call was made. -/
theorem pressAll_ok (replies : List SamplerReply) :
    ∀ (s : Renderer) (dev var : Handle), s.m_pDevice = some dev →
      s.m_pEffectSamplerVariable = some var → (∀ r ∈ replies, FAILED r.hr = false) →
      ∃ s1, pressAll replies s = .done s1 ∧ s1.m_pDevice = some dev ∧
        s1.m_pEffectSamplerVariable = some var ∧
        s1.m_FilteringMethod.toInt = (s.m_FilteringMethod.toInt + (replies.length : Int)) % 3 ∧
        ((s.m_SamplerDesc_Filter = filterOf s.m_FilteringMethod ∨ replies ≠ []) →
          s1.m_SamplerDesc_Filter = filterOf s1.m_FilteringMethod) := by
  induction replies with
  | nil =>
    intro s dev var hd hv _
    refine ⟨s, rfl, hd, hv, ?_, ?_⟩
    · cases s.m_FilteringMethod <;> rfl
    · intro h
      rcases h with h | h
      · exact h
      · exact absurd rfl h
  | cons r rs ih =>
    intro s dev var hd hv hok
    have hr : FAILED r.hr = false := hok r (List.mem_cons_self _ _)
    have hstep := press_ok_eq r s dev var hd hv hr
    obtain ⟨s1, h1, hd1, hv1, hm1, hf1⟩ := ih _ dev var
      (show (Outcome.state (PressFilterMethod r s)).m_pDevice = some dev by
        rw [hstep]; exact hd)
      (show (Outcome.state (PressFilterMethod r s)).m_pEffectSamplerVariable = some var by
        rw [hstep]; exact hv)
      (fun q hq => hok q (List.mem_cons_of_mem _ hq))
    have hst := press_state r s
    refine ⟨s1, ?_, hd1, hv1, ?_, ?_⟩
    · rw [← h1]
      simp only [pressAll]
      rw [hstep]
      simp [Outcome.state]
    · rw [hm1, hst.2.1, toInt_ofInt_succ_mod]
      simp only [List.length_cons, Nat.cast_add, Nat.cast_one]
      omega
    · intro _
      apply hf1
      left
      rw [hst.2.2, hst.2.1]

/-- A method whose underlying value is `n % 3` is the entry `n % 3` of the cyclic order. -/
theorem cyclicOrder_of_toInt (m : FilteringMethods) (n : Nat)
    (h : m.toInt = ((n : Int)) % 3) : cyclicOrder[n % 3]? = some m := by
  have h3 : n % 3 = 0 ∨ n % 3 = 1 ∨ n % 3 = 2 := by omega
  rcases h3 with h3 | h3 | h3 <;> rw [h3] <;> cases m <;>
    simp [FilteringMethods.toInt, cyclicOrder] at h ⊢ <;> omega

/-- A `PressFilterMethod` call that returns had the device present, leaves the device and
the effect variable pointers as they were, and leaves the `Filter` field equal to the
constant of the method. -/
theorem press_done (reply : SamplerReply) (s0 s : Renderer)
    (h : PressFilterMethod reply s0 = .done s) :
    (∃ dev, s0.m_pDevice = some dev) ∧ s.m_pDevice = s0.m_pDevice ∧
    s.m_pEffectSamplerVariable = s0.m_pEffectSamplerVariable ∧
    s.m_SamplerDesc_Filter = filterOf s.m_FilteringMethod := by
  cases hd : s0.m_pDevice with
  | none =>
    rw [press_no_device_eq reply s0 hd] at h
    cases h
  | some dev =>
    cases hf : FAILED reply.hr with
    | true =>
      rw [press_failed_eq reply s0 dev hd hf] at h
      cases h
      exact ⟨⟨dev, rfl⟩, hd, rfl, rfl⟩
    | false =>
      cases hv : s0.m_pEffectSamplerVariable with
      | none =>
        rw [press_no_var_eq reply s0 dev hd hv hf] at h
        cases h
      | some var =>
        rw [press_ok_eq reply s0 dev var hd hv hf] at h
        cases h
        exact ⟨⟨dev, rfl⟩, hd, hv, rfl⟩

/-- A run of `PressFilterMethod` calls that returns leaves the device and the effect
variable pointers as they were and keeps the `Filter` field equal to the constant of the
method, whether the sampler creations succeed or fail. -/
theorem pressAll_done (replies : List SamplerReply) :
    ∀ (s0 s : Renderer), pressAll replies s0 = .done s →
      s.m_pDevice = s0.m_pDevice ∧
      s.m_pEffectSamplerVariable = s0.m_pEffectSamplerVariable ∧
      (s0.m_SamplerDesc_Filter = filterOf s0.m_FilteringMethod →
        s.m_SamplerDesc_Filter = filterOf s.m_FilteringMethod) := by
  induction replies with
  | nil =>
    intro s0 s h
    simp only [pressAll] at h
    cases h
    exact ⟨rfl, rfl, fun hc => hc⟩
  | cons r rs ih =>
    intro s0 s h
    simp only [pressAll] at h
    cases hp : PressFilterMethod r s0 with
    | fault f s1 =>
      rw [hp] at h
      cases h
    | done s1 =>
      rw [hp] at h
      obtain ⟨_, hd1, hv1, hc1⟩ := press_done r s0 s1 hp
      obtain ⟨hd, hv, hc⟩ := ih s1 s h
      exact ⟨hd.trans hd1, hv.trans hv1, fun _ => hc hc1⟩

/-- In every state a caller can hold, the device and the effect sampler variable are
present and the `Filter` field is the constant of the filtering method. -/
theorem Reachable_inv (s : Renderer) (h : Reachable s) :
    (∃ dev, s.m_pDevice = some dev) ∧ (∃ var, s.m_pEffectSamplerVariable = some var) ∧
    s.m_SamplerDesc_Filter = filterOf s.m_FilteringMethod := by
  obtain ⟨codes, reply, replies, mode, filter, s1, hctor, hrun⟩ := h
  unfold Renderer.ctor at hctor
  obtain ⟨⟨dev, hdev⟩, hd1, hv1, hc1⟩ := press_done reply _ s1 hctor
  obtain ⟨hd, hv, hc⟩ := pressAll_done replies s1 s hrun
  have hvar : ∃ var, (Renderer.ctorInit codes
      (Renderer.fresh mode filter)).m_pEffectSamplerVariable = some var := ⟨_, rfl⟩
  obtain ⟨var, hvar⟩ := hvar
  refine ⟨⟨dev, ?_⟩, ⟨var, ?_⟩, hc hc1⟩
  · rw [hd, hd1, hdev]
  · rw [hv, hv1, hvar]

/-- C1. For every natural number `n`, starting from a state a caller can hold whose
filtering method is Point, `n` consecutive `PressFilterMethod` calls whose sampler creation
succeeds all return, and afterwards the method is the entry `n mod 3` of the cyclic order
Point, Linear, Anisotropic and the descriptor's `Filter` field is that method's constant
(`filterOf`: Point `MIN_MAG_MIP_POINT`, Linear `MIN_MAG_MIP_LINEAR`, Anisotropic
`ANISOTROPIC`). For `n = 1, 2, 3` the methods are Linear, Anisotropic, Point. -/
theorem PressFilterMethod_cycle (n : Nat) (s : Renderer) (replies : List SamplerReply)
    (hs : Reachable s) (hm : s.m_FilteringMethod = .Point) (hlen : replies.length = n)
    (hok : ∀ r ∈ replies, FAILED r.hr = false) :
    ∃ s1, pressAll replies s = .done s1 ∧
      cyclicOrder[n % 3]? = some s1.m_FilteringMethod ∧
      s1.m_SamplerDesc_Filter = filterOf s1.m_FilteringMethod := by
  obtain ⟨⟨dev, hd⟩, ⟨var, hv⟩, hc⟩ := Reachable_inv s hs
  obtain ⟨s1, h1, _, _, hm1, hf1⟩ := pressAll_ok replies s dev var hd hv hok
  refine ⟨s1, h1, ?_, hf1 (Or.inl hc)⟩
  apply cyclicOrder_of_toInt
  rw [hm1, hm, hlen]
  simp [FilteringMethods.toInt]

/-- The constructed state `readyState` is a state a caller can hold. -/
theorem readyState_reachable : Reachable readyState :=
  ⟨allOk, ⟨S_OK, true⟩, [], .Anisotropic, 0, readyState, by decide, rfl⟩

/-- Witness of C1: zero, one, two and three successful calls from the constructed state
(method Point) end in the methods Point, Linear, Anisotropic and Point, each with its own
constant in the `Filter` field. -/
theorem PressFilterMethod_cycle_witness :
    (∃ s1, pressAll [] readyState = .done s1 ∧
      cyclicOrder[0 % 3]? = some s1.m_FilteringMethod ∧
      s1.m_SamplerDesc_Filter = filterOf s1.m_FilteringMethod) ∧
    (∃ s1, pressAll [okReply] readyState = .done s1 ∧
      cyclicOrder[1 % 3]? = some s1.m_FilteringMethod ∧
      s1.m_SamplerDesc_Filter = filterOf s1.m_FilteringMethod) ∧
    (∃ s1, pressAll [okReply, okReply] readyState = .done s1 ∧
      cyclicOrder[2 % 3]? = some s1.m_FilteringMethod ∧
      s1.m_SamplerDesc_Filter = filterOf s1.m_FilteringMethod) ∧
    (∃ s1, pressAll [okReply, okReply, okReply] readyState = .done s1 ∧
      cyclicOrder[3 % 3]? = some s1.m_FilteringMethod ∧
      s1.m_SamplerDesc_Filter = filterOf s1.m_FilteringMethod) ∧
    cyclicOrder[1 % 3]? = some .Linear ∧ cyclicOrder[2 % 3]? = some .Anisotropic ∧
    cyclicOrder[3 % 3]? = some .Point :=
  ⟨PressFilterMethod_cycle 0 readyState [] readyState_reachable rfl rfl
      (by intro r hr; simp at hr),
   PressFilterMethod_cycle 1 readyState [okReply] readyState_reachable rfl rfl
      (by intro r hr; simp [okReply] at hr; subst hr; rfl),
   PressFilterMethod_cycle 2 readyState [okReply, okReply] readyState_reachable rfl rfl
      (by intro r hr; simp [okReply] at hr; subst hr; rfl),
   PressFilterMethod_cycle 3 readyState [okReply, okReply, okReply] readyState_reachable
      rfl rfl (by intro r hr; simp [okReply] at hr; subst hr; rfl),
   rfl, rfl, rfl⟩

/-! ## Failing sampler creation -/

/-- C6 as stated fails: in the constructed state the sampler object 10 is bound to slot 0
and held in `m_pSamplerState`; a `PressFilterMethod` call whose sampler creation fails
leaves 10 bound, but has called `Release` on it. -/
theorem failed_press_releases_bound_sampler :
    readyState.boundSampler = some 10 ∧
    FAILED failReply.hr = true ∧
    (PressFilterMethod failReply readyState).state.boundSampler = some 10 ∧
    releases (emitted readyState (PressFilterMethod failReply readyState).state) = [10] := by
  decide

/-- C6 (amended). In every state with the device present and a sampler object bound to
slot 0, a `PressFilterMethod` call whose sampler creation fails returns, and the calls it
makes are, in this order: one `Release` on the object held in `m_pSamplerState`, if there
is one, and then the failing `CreateSamplerState`; nothing else. So the `Release` precedes
the creation attempt, no `SetSampler` call is made, that same object is still the one bound
to slot 0, and the bound sampler has been released by the call when the member holds it. -/
theorem PressFilterMethod_failed_binding (reply : SamplerReply) (s : Renderer)
    (dev b : Handle) (hd : s.m_pDevice = some dev) (hb : s.boundSampler = some b)
    (hf : FAILED reply.hr = true) :
    ∃ s1, PressFilterMethod reply s = .done s1 ∧ s1.boundSampler = some b ∧
      s1.trace = s.trace ++ emitted s s1 ∧
      emitted s s1 =
        (match s.m_pSamplerState with
         | some old => [Event.release old]
         | none => []) ++
        [Event.CreateSamplerState dev s1.m_SamplerDesc_Filter reply.hr] ∧
      (∀ var slot h, Event.SetSampler var slot h ∉ emitted s s1) ∧
      releases (emitted s s1) = s.m_pSamplerState.toList ∧
      (s.m_pSamplerState = some b → releases (emitted s s1) = [b]) := by
  refine ⟨_, press_failed_eq reply s dev hd hf, hb, ?_, ?_, ?_, ?_, ?_⟩
  · cases hs : s.m_pSamplerState <;> simp [emitted, relOf]
  · cases hs : s.m_pSamplerState <;> simp [emitted, relOf]
  · intro var slot h
    cases hs : s.m_pSamplerState <;> simp [emitted, relOf]
  · cases hs : s.m_pSamplerState <;> simp [emitted, relOf, releases]
  · intro hs
    simp [emitted, relOf, releases, hs]

/-- Witness of C6 (amended): the constructed state and a failing creation. -/
theorem PressFilterMethod_failed_binding_witness :
    ∃ s1, PressFilterMethod failReply readyState = .done s1 ∧ s1.boundSampler = some 10 ∧
      s1.trace = readyState.trace ++ emitted readyState s1 ∧
      emitted readyState s1 =
        (match readyState.m_pSamplerState with
         | some old => [Event.release old]
         | none => []) ++
        [Event.CreateSamplerState 0 s1.m_SamplerDesc_Filter failReply.hr] ∧
      (∀ var slot h, Event.SetSampler var slot h ∉ emitted readyState s1) ∧
      releases (emitted readyState s1) = readyState.m_pSamplerState.toList ∧
      (readyState.m_pSamplerState = some 10 → releases (emitted readyState s1) = [10]) :=
  PressFilterMethod_failed_binding failReply readyState 0 10 rfl rfl rfl

/-- C7 as stated fails: from the constructed state (method Point, `Filter` Point's
constant) a `PressFilterMethod` call whose sampler creation fails ends with method Linear
and `Filter` Linear's constant. -/
theorem failed_press_advances_mode :
    readyState.m_FilteringMethod = .Point ∧
    readyState.m_SamplerDesc_Filter = D3D11_FILTER_MIN_MAG_MIP_POINT ∧
    FAILED failReply.hr = true ∧
    (PressFilterMethod failReply readyState).state.m_FilteringMethod = .Linear ∧
    (PressFilterMethod failReply readyState).state.m_SamplerDesc_Filter =
      D3D11_FILTER_MIN_MAG_MIP_LINEAR := by
  decide

/-- C7 (amended). `PressFilterMethod` moves to the next method whether or not sampler
creation succeeds: in every state with the device present, a call whose sampler creation
fails returns; the calls it makes are a `Release` on the object held in `m_pSamplerState`,
if there is one, and then the one `CreateSamplerState` attempt, which is made with the
descriptor's `Filter` field already holding the constant of the next method in the cyclic
order; and after the call the method is that next method, so different from the method
before, and the `Filter` field is its constant. -/
theorem PressFilterMethod_failed_mode (reply : SamplerReply) (s : Renderer) (dev : Handle)
    (hd : s.m_pDevice = some dev) (hf : FAILED reply.hr = true) :
    ∃ s1, PressFilterMethod reply s = .done s1 ∧
      s1.m_FilteringMethod =
        (match s.m_FilteringMethod with
         | .Point => .Linear
         | .Linear => .Anisotropic
         | .Anisotropic => .Point) ∧
      s1.m_FilteringMethod ≠ s.m_FilteringMethod ∧
      s1.m_SamplerDesc_Filter = filterOf s1.m_FilteringMethod ∧
      s1.trace = s.trace ++ emitted s s1 ∧
      emitted s s1 =
        (match s.m_pSamplerState with
         | some old => [Event.release old]
         | none => []) ++
        [Event.CreateSamplerState dev
          (filterOf (match s.m_FilteringMethod with
            | .Point => .Linear
            | .Linear => .Anisotropic
            | .Anisotropic => .Point))
          reply.hr] := by
  refine ⟨_, press_failed_eq reply s dev hd hf, ?_, ?_, rfl, ?_, ?_⟩
  · exact ofInt_succ_mod s.m_FilteringMethod
  · show FilteringMethods.ofInt ((s.m_FilteringMethod.toInt + 1) % 3) ≠ s.m_FilteringMethod
    rw [ofInt_succ_mod]
    cases s.m_FilteringMethod <;> simp
  · cases hs : s.m_pSamplerState <;> simp [emitted, relOf]
  · rw [← ofInt_succ_mod]
    cases hs : s.m_pSamplerState <;> simp [emitted, relOf]

/-- Witness of C7 (amended): the constructed state and a failing creation. -/
theorem PressFilterMethod_failed_mode_witness :
    ∃ s1, PressFilterMethod failReply readyState = .done s1 ∧
      s1.m_FilteringMethod =
        (match readyState.m_FilteringMethod with
         | .Point => .Linear
         | .Linear => .Anisotropic
         | .Anisotropic => .Point) ∧
      s1.m_FilteringMethod ≠ readyState.m_FilteringMethod ∧
      s1.m_SamplerDesc_Filter = filterOf s1.m_FilteringMethod ∧
      s1.trace = readyState.trace ++ emitted readyState s1 ∧
      emitted readyState s1 =
        (match readyState.m_pSamplerState with
         | some old => [Event.release old]
         | none => []) ++
        [Event.CreateSamplerState 0
          (filterOf (match readyState.m_FilteringMethod with
            | .Point => .Linear
            | .Linear => .Anisotropic
            | .Anisotropic => .Point))
          failReply.hr] :=
  PressFilterMethod_failed_mode failReply readyState 0 rfl rfl

/-! ## Whole lifetimes -/

/-- Witness of C3: when only the depth-stencil view creation fails, its code is returned,
the five steps up to it are the ones called, and the objects of the four steps before it are
held; when nothing fails the result is `S_OK`. -/
theorem InitializeDirectX_first_failure_witness :
    ((InitializeDirectX (failAt .CreateDepthStencilView) (Renderer.fresh .Point 0)).1 = E_FAIL ∧
      attempted (emitted (Renderer.fresh .Point 0)
        (InitializeDirectX (failAt .CreateDepthStencilView) (Renderer.fresh .Point 0)).2) =
        [.D3D11CreateDevice, .CreateDXGIFactory1, .CreateSwapChain, .CreateTexture2D,
         .CreateDepthStencilView] ∧
      (InitializeDirectX (failAt .CreateDepthStencilView) (Renderer.fresh .Point 0)).2.slot
        .SwapChain = some 3) ∧
    (InitializeDirectX allOk (Renderer.fresh .Point 0)).1 = S_OK := by
  have hfail := (InitializeDirectX_first_failure (failAt .CreateDepthStencilView)
    (Renderer.fresh .Point 0) .CreateDepthStencilView).1 (by decide)
    (by intro j hj; cases j <;> first | rfl | exact absurd hj (by decide))
  have hok := (InitializeDirectX_first_failure allOk (Renderer.fresh .Point 0)
    .D3D11CreateDevice).2 (by intro j; rfl)
  exact ⟨⟨hfail.1, hfail.2.1, hfail.2.2.2.2.2 .SwapChain 3 (by decide) (by decide)⟩, hok.1⟩

/-- C9 as stated fails: after a construction in which every step succeeds the objects kept
were obtained in the order 0, 1, 3, 4, 5, 6, 7, 9, 10 (device, context, swap chain,
depth-stencil buffer and view, render-target buffer and view, effect variable, sampler),
and the destructor releases them in the order 7, 6, 5, 4, 3, 1, 0, 9, 10, which is not the
reverse: the effect variable and the sampler come last and in creation order. -/
theorem teardown_not_reverse_of_construction :
    owned readyState.trace = [0, 1, 3, 4, 5, 6, 7, 9, 10] ∧
    releases (emitted readyState (Renderer.dtor readyState)) = [7, 6, 5, 4, 3, 1, 0, 9, 10] ∧
    releases (emitted readyState (Renderer.dtor readyState)) ≠
      (owned readyState.trace).reverse := by
  decide

/-- C9 (amended). After a construction in which every step of `InitializeDirectX` and the
sampler creation succeed, the destructor releases the objects that `InitializeDirectX`
obtained and kept (device, device context, swap chain, depth-stencil buffer, depth-stencil
view, render-target buffer, render-target view) in the reverse of the order in which they
were obtained, and after them the two objects obtained later in the constructor, the effect
sampler variable and the sampler object, in the order in which they were obtained. -/
theorem teardown_order_after_construction (codes : Step → HRESULT) (reply : SamplerReply)
    (mode : FilteringMethods) (filter : D3D11_FILTER)
    (hall : ∀ k : Step, FAILED (codes k) = false) (hr : FAILED reply.hr = false) :
    ∃ s, Renderer.ctor codes reply (Renderer.fresh mode filter) = .done s ∧
      releases (emitted s (Renderer.dtor s)) =
        (owned (InitializeDirectX codes (Renderer.fresh mode filter)).2.trace).reverse ++
          owned (emitted (InitializeDirectX codes (Renderer.fresh mode filter)).2 s) ∧
      (acquired (InitializeDirectX codes (Renderer.fresh mode filter)).2.trace).map Prod.fst =
        Step.all.flatMap Step.creates ∧
      (acquired (emitted (InitializeDirectX codes (Renderer.fresh mode filter)).2 s)).map
        Prod.fst = [.EffectSamplerVariable, .SamplerState] := by
  have hinit : InitializeDirectX codes (Renderer.fresh mode filter) =
      (S_OK, { Renderer.fresh mode filter with
        m_pDevice := some 0, m_pDeviceContext := some 1, m_pSwapChain := some 3,
        m_pDepthStencilBuffer := some 4, m_pDepthStencilView := some 5,
        m_pRenderTargetBuffer := some 6, m_pRenderTargetView := some 7, nextHandle := 8,
        trace := [Event.call .D3D11CreateDevice (codes .D3D11CreateDevice),
          Event.acquire .Device 0, Event.acquire .DeviceContext 1,
          Event.call .CreateDXGIFactory1 (codes .CreateDXGIFactory1), Event.acquire .Factory 2,
          Event.call .CreateSwapChain (codes .CreateSwapChain), Event.acquire .SwapChain 3,
          Event.call .CreateTexture2D (codes .CreateTexture2D),
          Event.acquire .DepthStencilBuffer 4,
          Event.call .CreateDepthStencilView (codes .CreateDepthStencilView),
          Event.acquire .DepthStencilView 5,
          Event.call .GetBuffer (codes .GetBuffer), Event.acquire .RenderTargetBuffer 6,
          Event.call .CreateRenderTargetView (codes .CreateRenderTargetView),
          Event.acquire .RenderTargetView 7,
          Event.OMSetRenderTargets 1 (some 7) (some 5), Event.RSSetViewports 1] }) := by
    simp [InitializeDirectX, hall, Renderer.fresh, Renderer.emit]
  have hpre : Renderer.ctorInit codes (Renderer.fresh mode filter) =
      { Renderer.fresh mode filter with
        m_IsInitialized := true,
        m_pDevice := some 0, m_pDeviceContext := some 1, m_pSwapChain := some 3,
        m_pDepthStencilBuffer := some 4, m_pDepthStencilView := some 5,
        m_pRenderTargetBuffer := some 6, m_pRenderTargetView := some 7,
        m_pMesh := some 8, m_pEffectSamplerVariable := some 9, nextHandle := 10,
        trace := (InitializeDirectX codes (Renderer.fresh mode filter)).2.trace ++
          [Event.newMesh (some 0), Event.acquire .EffectSamplerVariable 9] } := by
    unfold Renderer.ctorInit
    simp only [hinit]
    simp [CreateMesh, Renderer.fresh]
  have hctor := press_ok_eq reply (Renderer.ctorInit codes (Renderer.fresh mode filter))
    0 9 (by rw [hpre]) (by rw [hpre]) hr
  refine ⟨_, hctor, ?_, ?_, ?_⟩
  · rw [dtor_emitted, hpre, hinit]
    simp [releases_append, releases_relOf, releases_ctxOf, releases, owned, acquired, emitted,
      relOf, Renderer.fresh]
  · rw [hinit]
    simp [acquired, Step.all, Step.creates, Renderer.fresh]
  · rw [hpre, hinit]
    simp [acquired, emitted, relOf, Renderer.fresh]

/-- Witness of C9 (amended): every step returns `S_OK`. -/
theorem teardown_order_after_construction_witness :
    ∃ s, Renderer.ctor allOk okReply (Renderer.fresh .Anisotropic 0) = .done s ∧
      releases (emitted s (Renderer.dtor s)) =
        (owned (InitializeDirectX allOk (Renderer.fresh .Anisotropic 0)).2.trace).reverse ++
          owned (emitted (InitializeDirectX allOk (Renderer.fresh .Anisotropic 0)).2 s) ∧
      (acquired (InitializeDirectX allOk (Renderer.fresh .Anisotropic 0)).2.trace).map
        Prod.fst = Step.all.flatMap Step.creates ∧
      (acquired (emitted (InitializeDirectX allOk (Renderer.fresh .Anisotropic 0)).2 s)).map
        Prod.fst = [.EffectSamplerVariable, .SamplerState] :=
  teardown_order_after_construction allOk okReply .Anisotropic 0 (fun _ => rfl) rfl

/-- `InitializeDirectX` makes no `Release` call, whatever the steps return. -/
theorem InitializeDirectX_no_release (codes : Step → HRESULT) (s : Renderer) :
    releases (emitted s (InitializeDirectX codes s).2) = [] := by
  simp only [InitializeDirectX]
  split_ifs <;> simp [emitted, Renderer.emit, releases]

/-- C8 at the failing inputs: when every step succeeds, and also when only the swap-chain
creation fails, `InitializeDirectX` obtains the factory (object 2) and returns without a
`Release` call on it, so the factory is still unreleased when initialisation ends; it is not
held in any member pointer either. Whatever the steps return, `InitializeDirectX` makes no
`Release` call at all. -/
theorem InitializeDirectX_never_releases_factory :
    (Res.Factory, 2) ∈ acquired (InitializeDirectX allOk (Renderer.fresh .Point 0)).2.trace ∧
    (releases (InitializeDirectX allOk (Renderer.fresh .Point 0)).2.trace).count 2 = 0 ∧
    (Res.Factory, 2) ∈
      acquired (InitializeDirectX (failAt .CreateSwapChain) (Renderer.fresh .Point 0)).2.trace ∧
    (releases (InitializeDirectX (failAt .CreateSwapChain)
      (Renderer.fresh .Point 0)).2.trace).count 2 = 0 ∧
    (∀ r ∈ teardownOrder,
      (InitializeDirectX allOk (Renderer.fresh .Point 0)).2.slot r ≠ some 2) ∧
    (∀ (codes : Step → HRESULT) (s : Renderer),
      releases (emitted s (InitializeDirectX codes s).2) = []) := by
  refine ⟨?_, ?_, ?_, ?_, ?_, InitializeDirectX_no_release⟩ <;> decide

/-- C5 at the failing inputs. First lifetime: construction with every step succeeding,
then teardown: the factory (object 2) was obtained and `Release` is never called on it.
Second lifetime: construction, one `PressFilterMethod` call whose creation fails and leaves
the out-parameter as it was, then teardown: `Release` is called twice on the sampler
object 10. -/
theorem lifetime_release_counts :
    (Res.Factory, 2) ∈ acquired (Renderer.dtor readyState).trace ∧
    (releases (Renderer.dtor readyState).trace).count 2 = 0 ∧
    (Res.SamplerState, 10) ∈
      acquired (Renderer.dtor (pressAll [failReplyKeep] readyState).state).trace ∧
    (releases (Renderer.dtor (pressAll [failReplyKeep] readyState).state).trace).count 10
      = 2 := by
  decide

/-- C10 at the failing input: when `D3D11CreateDevice` fails, the constructor still builds
the mesh from the null device pointer and calls `PressFilterMethod`, which calls
`CreateSamplerState` through the null `m_pDevice`. -/
theorem ctor_calls_through_null_device (reply : SamplerReply) (mode : FilteringMethods)
    (filter : D3D11_FILTER) :
    ∃ s, Renderer.ctor (failAt .D3D11CreateDevice) reply (Renderer.fresh mode filter) =
        .fault .nullDevice s ∧
      s.m_pDevice = none ∧ s.m_IsInitialized = false ∧ Event.newMesh none ∈ s.trace := by
  refine ⟨_, press_no_device_eq reply _ ?_, ?_, ?_, ?_⟩ <;>
    simp [Renderer.ctorInit, InitializeDirectX, failAt, FAILED, E_FAIL, S_OK, CreateMesh,
      Renderer.fresh, Renderer.emit]

/-! ## Every lifetime: what is released, and how often -/

theorem acquired_append (xs ys : List Event) :
    acquired (xs ++ ys) = acquired xs ++ acquired ys := by
  induction xs with
  | nil => rfl
  | cons e es ih => cases e <;> simp [acquired, ih]

theorem acquired_relOf (p : Option Handle) : acquired (relOf p) = [] := by
  cases p <;> rfl

theorem acquired_ctxOf (p : Option Handle) : acquired (ctxOf p) = [] := by
  cases p <;> rfl

/-- A state in which no sampler is held satisfies the bookkeeping relative to itself. -/
theorem PressInv_refl (s0 : Renderer) (h0 : s0.m_pSamplerState = none) : PressInv s0 s0 := by
  refine ⟨[], [], by simp, rfl, by simp [releases, h0], by simp, List.nodup_nil,
    le_refl _, fun _ _ => rfl⟩

/-- One `PressFilterMethod` call keeps the bookkeeping, provided the device and the effect
variable are present and a failing creation nulls the out-parameter. -/
theorem PressInv_step (reply : SamplerReply) (s0 s : Renderer) (dev var : Handle)
    (hd : s.m_pDevice = some dev) (hv : s.m_pEffectSamplerVariable = some var)
    (hc : FAILED reply.hr = true → reply.clearsOut = true) (hinv : PressInv s0 s) :
    ∃ s1, PressFilterMethod reply s = .done s1 ∧ PressInv s0 s1 ∧
      s1.m_pDevice = some dev ∧ s1.m_pEffectSamplerVariable = some var := by
  obtain ⟨T, L, hT, hacq, hL, hrange, hnd, hle, hframe⟩ := hinv
  cases hf : FAILED reply.hr with
  | true =>
    have hco := hc hf
    refine ⟨_, press_failed_eq reply s dev hd hf, ?_, hd, hv⟩
    refine ⟨T ++ (relOf s.m_pSamplerState ++ [Event.CreateSamplerState dev
      (filterOf (FilteringMethods.ofInt ((s.m_FilteringMethod.toInt + 1) % 3))) reply.hr]),
      L, ?_, ?_, ?_, ?_, hnd, hle, ?_⟩
    · simp [hT]
    · simp [acquired_append, acquired_relOf, acquired, hacq]
    · simp [releases_append, releases_relOf, releases, hco, hL]
    · exact hrange
    · intro r hr
      have := hframe r hr
      cases r <;> simp_all [Renderer.slot]
  | false =>
    refine ⟨_, press_ok_eq reply s dev var hd hv hf, ?_, hd, hv⟩
    refine ⟨T ++ (relOf s.m_pSamplerState ++ [Event.CreateSamplerState dev
      (filterOf (FilteringMethods.ofInt ((s.m_FilteringMethod.toInt + 1) % 3))) reply.hr,
      Event.acquire .SamplerState s.nextHandle, Event.SetSampler var 0 s.nextHandle]),
      L ++ [s.nextHandle], ?_, ?_, ?_, ?_, ?_, ?_, ?_⟩
    · simp [hT]
    · simp [acquired_append, acquired_relOf, acquired, hacq]
    · simp [releases_append, releases_relOf, releases, hL]
    · intro h hh
      rcases List.mem_append.1 hh with hh | hh
      · have := hrange h hh
        exact ⟨this.1, Nat.lt_succ_of_lt this.2⟩
      · simp only [List.mem_singleton] at hh
        subst hh
        exact ⟨hle, Nat.lt_succ_self _⟩
    · rw [List.nodup_append]
      refine ⟨hnd, List.nodup_singleton _, ?_⟩
      intro a ha hb
      simp only [List.mem_singleton] at hb
      subst hb
      exact absurd (hrange _ ha).2 (lt_irrefl _)
    · exact Nat.le_succ_of_le hle
    · intro r hr
      have := hframe r hr
      cases r <;> simp_all [Renderer.slot]

/-- A run of `PressFilterMethod` calls keeps the bookkeeping and always returns. -/
theorem PressInv_pressAll (replies : List SamplerReply) (s0 : Renderer) :
    ∀ (s : Renderer) (dev var : Handle), s.m_pDevice = some dev →
      s.m_pEffectSamplerVariable = some var →
      (∀ r ∈ replies, FAILED r.hr = true → r.clearsOut = true) → PressInv s0 s →
      ∃ s1, pressAll replies s = .done s1 ∧ PressInv s0 s1 := by
  induction replies with
  | nil =>
    intro s dev var _ _ _ hinv
    exact ⟨s, rfl, hinv⟩
  | cons r rs ih =>
    intro s dev var hd hv hc hinv
    obtain ⟨s1, h1, hinv1, hd1, hv1⟩ :=
      PressInv_step r s0 s dev var hd hv (hc r (List.mem_cons_self _ _)) hinv
    obtain ⟨s2, h2, hinv2⟩ :=
      ih s1 dev var hd1 hv1 (fun q hq => hc q (List.mem_cons_of_mem _ hq)) hinv1
    refine ⟨s2, ?_, hinv2⟩
    simp only [pressAll, h1]
    exact h2

/-- Every `Release` call up to the end of the destructor. -/
theorem dtor_releases_all (s : Renderer) :
    releases (Renderer.dtor s).trace = releases s.trace ++ teardownOrder.filterMap s.slot := by
  rw [dtor_eq, filterMap_slot_teardownOrder]
  simp [releases_append, releases_relOf, releases_ctxOf, releases]

/-- The destructor obtains no object. -/
theorem dtor_acquired (s : Renderer) :
    acquired (Renderer.dtor s).trace = acquired s.trace := by
  rw [dtor_eq]
  simp [acquired_append, acquired_relOf, acquired_ctxOf, acquired]

theorem count_filterMap_slot (s : Renderer) (h : Handle) (l : List Res) :
    (l.filterMap s.slot).count h = l.countP (fun r => decide (s.slot r = some h)) := by
  induction l with
  | nil => rfl
  | cons r rs ih =>
    cases hr : s.slot r with
    | none => simp [List.filterMap_cons, hr, ih]
    | some g =>
      by_cases hg : g = h
      · simp [List.filterMap_cons, hr, ih, hg]
      · simp [List.filterMap_cons, hr, ih, hg, List.count_cons]

/-- A test that holds of no member pointer is counted zero times along the destructor. -/
theorem countP_teardownOrder_zero (p : Res → Bool)
    (h : ∀ r, r ≠ Res.Factory → p r = false) : teardownOrder.countP p = 0 := by
  simp [teardownOrder, List.countP_cons, h]

/-- A test that holds of exactly one member pointer is counted once along the destructor. -/
theorem countP_teardownOrder_one (p : Res → Bool) (r0 : Res) (h0 : r0 ≠ Res.Factory)
    (h : ∀ r, r ≠ Res.Factory → (p r = true ↔ r = r0)) : teardownOrder.countP p = 1 := by
  have h1 := h .RenderTargetView (by decide)
  have h2 := h .RenderTargetBuffer (by decide)
  have h3 := h .DepthStencilView (by decide)
  have h4 := h .DepthStencilBuffer (by decide)
  have h5 := h .SwapChain (by decide)
  have h6 := h .DeviceContext (by decide)
  have h7 := h .Device (by decide)
  have h8 := h .EffectSamplerVariable (by decide)
  have h9 := h .SamplerState (by decide)
  cases r0 <;> simp_all [teardownOrder, List.countP_cons]

/-- From a state as the constructor leaves it at line 47, after any run of
`PressFilterMethod` calls that keeps the sampler bookkeeping, and then the destructor: every
object obtained during the lifetime has exactly one `Release` call, except the factory,
which has none. -/
theorem lifetime_counts (s0 sN : Renderer) (hb : CtorBase s0) (hinv : PressInv s0 sN) :
    ∀ r h, (r, h) ∈ acquired (Renderer.dtor sN).trace →
      (releases (Renderer.dtor sN).trace).count h = if r = Res.Factory then 0 else 1 := by
  obtain ⟨_, hrel0, _, _, hacq0, hslot0, hfac0⟩ := hb
  obtain ⟨T, L, hT, hacq, hL, hrange, hnd, _, hframe⟩ := hinv
  have hR : releases (Renderer.dtor sN).trace =
      releases T ++ teardownOrder.filterMap sN.slot := by
    rw [dtor_releases_all, hT, releases_append, hrel0]
    simp
  have hss : ∀ g, sN.m_pSamplerState = some g → g ∈ L := by
    intro g hg
    rw [hL, hg]
    simp
  have hrelL : ∀ g ∈ releases T, g ∈ L := by
    intro g hg
    rw [hL]
    exact List.mem_append_left _ hg
  intro r h hmem
  rw [dtor_acquired, hT, acquired_append, hacq] at hmem
  rw [hR, List.count_append, count_filterMap_slot]
  rcases List.mem_append.1 hmem with hmem | hmem
  · obtain ⟨hlt, hnss, hsl⟩ := hacq0 r h hmem
    have hc0 : (releases T).count h = 0 :=
      List.count_eq_zero_of_not_mem
        (fun hh => absurd (hrange h (hrelL h hh)).1 (not_le.2 hlt))
    have hssne : sN.m_pSamplerState ≠ some h :=
      fun hh => absurd (hrange h (hss h hh)).1 (not_le.2 hlt)
    by_cases hfac : r = Res.Factory
    · subst hfac
      rw [hc0, countP_teardownOrder_zero]
      · simp
      · intro r2 _
        by_cases h2 : r2 = Res.SamplerState
        · subst h2
          simpa [Renderer.slot] using hssne
        · rw [hframe r2 h2]
          simpa using hfac0 h hmem r2
    · have hheld : s0.slot r = some h := hsl hfac
      rw [hc0, countP_teardownOrder_one _ r hfac]
      · simp [hfac]
      · intro r2 _
        by_cases h2 : r2 = Res.SamplerState
        · subst h2
          constructor
          · intro hp
            exact absurd (by simpa [Renderer.slot] using hp) hssne
          · intro hp
            exact absurd hp.symm hnss
        · rw [hframe r2 h2]
          constructor
          · intro hp
            exact (hslot0 r h hheld).2 r2 (by simpa using hp)
          · intro hp
            subst hp
            simpa using hheld
  · obtain ⟨g, hg, heq⟩ := List.mem_map.1 hmem
    cases heq
    have hone : L.count h = 1 := List.count_eq_one_of_mem hnd hg
    rw [hL, List.count_append] at hone
    have hother : ∀ r2, r2 ≠ Res.Factory → r2 ≠ Res.SamplerState → sN.slot r2 ≠ some h := by
      intro r2 _ h2 hp
      rw [hframe r2 h2] at hp
      exact absurd (hrange h hg).1 (not_le.2 (hslot0 r2 h hp).1)
    by_cases hheld : sN.m_pSamplerState = some h
    · rw [countP_teardownOrder_one _ Res.SamplerState (by decide)]
      · rw [hheld] at hone
        simp at hone
        simp [hone]
      · intro r2 hr2
        by_cases h2 : r2 = Res.SamplerState
        · subst h2
          simpa [Renderer.slot] using hheld
        · simpa [h2] using hother r2 hr2 h2
    · rw [countP_teardownOrder_zero]
      · have hz : (sN.m_pSamplerState.toList).count h = 0 := by
          cases hs : sN.m_pSamplerState with
          | none => simp
          | some k =>
            rw [hs] at hheld
            have : k ≠ h := fun hk => hheld (by rw [hk])
            simp [List.count_cons, this]
        rw [hz] at hone
        simpa using hone
      · intro r2 hr2
        by_cases h2 : r2 = Res.SamplerState
        · subst h2
          simpa [Renderer.slot] using hheld
        · simpa using hother r2 hr2 h2

/-- The state the constructor reaches at line 47 when device creation succeeded, whatever
the later steps return, is a base state for the lifetime theorem. -/
theorem ctorInit_base (codes : Step → HRESULT) (mode : FilteringMethods)
    (filter : D3D11_FILTER) (h0 : FAILED (codes .D3D11CreateDevice) = false) :
    CtorBase (Renderer.ctorInit codes (Renderer.fresh mode filter)) := by
  by_cases h1 : FAILED (codes .CreateDXGIFactory1) = true
  · have hc := FAILED_ne_S_OK _ h1
    simp [CtorBase, Renderer.ctorInit, InitializeDirectX, CreateMesh, Renderer.fresh, Renderer.emit,
      acquired, releases, Renderer.slot, h0, h1, hc]
    split_ands <;> intro r <;> cases r <;> simp <;> intro r2 <;> cases r2 <;> simp
  · simp only [Bool.not_eq_true] at h1
    by_cases h2 : FAILED (codes .CreateSwapChain) = true
    · have hc := FAILED_ne_S_OK _ h2
      simp [CtorBase, Renderer.ctorInit, InitializeDirectX, CreateMesh, Renderer.fresh, Renderer.emit,
        acquired, releases, Renderer.slot, h0, h1, h2, hc]
      split_ands <;> intro r <;> cases r <;> simp <;> intro r2 <;> cases r2 <;> simp
    · simp only [Bool.not_eq_true] at h2
      by_cases h3 : FAILED (codes .CreateTexture2D) = true
      · have hc := FAILED_ne_S_OK _ h3
        simp [CtorBase, Renderer.ctorInit, InitializeDirectX, CreateMesh, Renderer.fresh, Renderer.emit,
          acquired, releases, Renderer.slot, h0, h1, h2, h3, hc]
        split_ands <;> intro r <;> cases r <;> simp <;> intro r2 <;> cases r2 <;> simp
      · simp only [Bool.not_eq_true] at h3
        by_cases h4 : FAILED (codes .CreateDepthStencilView) = true
        · have hc := FAILED_ne_S_OK _ h4
          simp [CtorBase, Renderer.ctorInit, InitializeDirectX, CreateMesh, Renderer.fresh, Renderer.emit,
            acquired, releases, Renderer.slot, h0, h1, h2, h3, h4, hc]
          split_ands <;> intro r <;> cases r <;> simp <;> intro r2 <;> cases r2 <;> simp
        · simp only [Bool.not_eq_true] at h4
          by_cases h5 : FAILED (codes .GetBuffer) = true
          · have hc := FAILED_ne_S_OK _ h5
            simp [CtorBase, Renderer.ctorInit, InitializeDirectX, CreateMesh, Renderer.fresh, Renderer.emit,
              acquired, releases, Renderer.slot, h0, h1, h2, h3, h4, h5, hc]
            split_ands <;> intro r <;> cases r <;> simp <;> intro r2 <;> cases r2 <;> simp
          · simp only [Bool.not_eq_true] at h5
            by_cases h6 : FAILED (codes .CreateRenderTargetView) = true
            · have hc := FAILED_ne_S_OK _ h6
              simp [CtorBase, Renderer.ctorInit, InitializeDirectX, CreateMesh, Renderer.fresh, Renderer.emit,
                acquired, releases, Renderer.slot, h0, h1, h2, h3, h4, h5, h6, hc]
              split_ands <;> intro r <;> cases r <;> simp <;> intro r2 <;> cases r2 <;> simp
            · simp only [Bool.not_eq_true] at h6
              simp [CtorBase, Renderer.ctorInit, InitializeDirectX, CreateMesh, Renderer.fresh, Renderer.emit,
                  acquired, releases, Renderer.slot, h0, h1, h2, h3, h4, h5, h6, S_OK]
              split_ands <;> intro r <;> cases r <;> simp <;> intro r2 <;> cases r2 <;> simp

/-- Every lifetime in which device creation succeeded, whatever the later steps return:
the constructor, any finite run of `PressFilterMethod` calls, and the destructor all return,
and when each failing sampler creation nulls the out-parameter, every object obtained during
the lifetime has exactly one `Release` call, except the factory, which has none. -/
theorem lifetime_releases_all_but_factory (codes : Step → HRESULT) (reply : SamplerReply)
    (replies : List SamplerReply) (mode : FilteringMethods) (filter : D3D11_FILTER)
    (h0 : FAILED (codes .D3D11CreateDevice) = false)
    (hc : ∀ r ∈ reply :: replies, FAILED r.hr = true → r.clearsOut = true) :
    ∃ s1 sN, Renderer.ctor codes reply (Renderer.fresh mode filter) = .done s1 ∧
      pressAll replies s1 = .done sN ∧
      ∀ r h, (r, h) ∈ acquired (Renderer.dtor sN).trace →
        (releases (Renderer.dtor sN).trace).count h = if r = Res.Factory then 0 else 1 := by
  have hb := ctorInit_base codes mode filter h0
  obtain ⟨dev, hd⟩ := hb.2.2.1
  obtain ⟨var, hv⟩ := hb.2.2.2.1
  obtain ⟨s1, h1, hinv1, hd1, hv1⟩ := PressInv_step reply _ _ dev var hd hv
    (hc reply (List.mem_cons_self _ _)) (PressInv_refl _ hb.1)
  obtain ⟨sN, hN, hinvN⟩ := PressInv_pressAll replies _ s1 dev var hd1 hv1
    (fun q hq => hc q (List.mem_cons_of_mem _ hq)) hinv1
  exact ⟨s1, sN, h1, hN, lifetime_counts _ sN hb hinvN⟩

end dae
